import Mathlib

/-!
Shallow embedding of the connectivity core of the `tari` comms subsystem
(`src/comms/src/connectivity/*` and `src/comms/src/peer_manager/manager.rs`).

Rust `Instant` / `Duration` values are modelled as `Nat` ticks, with the
current time passed explicitly as a `now : Nat` parameter wherever the
source calls `Instant::now()` / `Instant::elapsed()`.  Machine integers
(`usize`) are modelled as `Nat`; none of the embedded code relies on
overflow.  Fallible operations return `Except`.
-/

namespace Tari

/-- A node identifier: a fixed-width value derived from a public key,
modelled as a `Nat`. -/
abbrev NodeId := Nat

/-- Modelled from the spec: the XOR distance metric on node ids
(`NodeId::distance`, whose source is not part of the staged files):
the bitwise XOR of the two identifiers, totally ordered as a natural
number. -/
def NodeId.distance (a b : NodeId) : Nat := Nat.xor a b

/-- A public key, modelled as an opaque `Nat`. -/
abbrev PublicKey := Nat

/-- Modelled from the spec: `PeerFeatures` is a bit set
(`COMMUNICATION_NODE`, `COMMUNICATION_CLIENT`, extensible), modelled
as a `Nat` bit mask. -/
abbrev PeerFeatures := Nat

/-- The `COMMUNICATION_NODE` feature bit. -/
def PeerFeatures.COMMUNICATION_NODE : PeerFeatures := 1

/-- The `COMMUNICATION_CLIENT` feature bit. -/
def PeerFeatures.COMMUNICATION_CLIENT : PeerFeatures := 2

/-- Modelled from the spec: bit-set containment, `self.contains(other)`
of the Rust bitflags crate: every bit of `other` is set in `self`. -/
def PeerFeatures.contains (self other : PeerFeatures) : Bool :=
  Nat.land self other == other

/-- Modelled from the spec: the per-peer connection statistics
(`connection_stats` carries `failed_attempts`, `last_success`,
`last_failure`); the type itself (`PeerConnectionStats`) is declared in
`peer_manager/connection_stats.rs`, which is not part of the staged
files. -/
structure PeerConnectionStats where
  failed_attempts : Nat
  last_success : Option Nat
  last_failure : Option Nat
deriving DecidableEq, Repr

/-- Modelled from the spec: recording a connection success sets the
success timestamp and resets `failed_attempts` to 0 (spec section 8:
a successful contact "clears `is_offline` and resets `failed_attempts`
to 0"; the reset of the counter itself lives in
`PeerConnectionStats::set_connection_success`). -/
def PeerConnectionStats.set_connection_success (s : PeerConnectionStats) (now : Nat) :
    PeerConnectionStats :=
  { s with failed_attempts := 0, last_success := some now }

/-- Modelled from the spec: recording a connection failure increments
`failed_attempts` and stamps `last_failure`
(`PeerConnectionStats::set_connection_failed`). -/
def PeerConnectionStats.set_connection_failed (s : PeerConnectionStats) (now : Nat) :
    PeerConnectionStats :=
  { s with failed_attempts := s.failed_attempts + 1, last_failure := some now }

/-- Modelled from the spec: the time elapsed since the last recorded
connection failure, `None` when no failure was ever recorded
(`PeerConnectionStats::time_since_last_failure`). -/
def PeerConnectionStats.time_since_last_failure (s : PeerConnectionStats) (now : Nat) :
    Option Nat :=
  s.last_failure.map (fun t => now - t)

/-- The `BANNED` bit of the peer flag bit set. -/
def PeerFlags.BANNED : Nat := 1

/-- Modelled from the spec: the `Peer` record of the peer directory
(declared in `peer_manager/peer.rs`, not part of the staged files):
public key, derived node id, addresses, flags (bit set including
`banned`), optional ban deadline, offline latch, feature bits,
connection statistics and supported protocols. -/
structure Peer where
  public_key : PublicKey
  node_id : NodeId
  addresses : List Nat
  flags : Nat
  banned_until : Option Nat
  is_offline : Bool
  features : PeerFeatures
  connection_stats : PeerConnectionStats
  supported_protocols : List Nat
deriving DecidableEq, Repr

/-- Modelled from the spec: `Peer::is_banned` reads the `banned` bit of
the flag bit set. -/
def Peer.is_banned (p : Peer) : Bool :=
  PeerFeatures.contains p.flags PeerFlags.BANNED

/-- Modelled from the spec: `Peer::new` builds a fresh record with
default flags, not offline, and zeroed connection statistics. -/
def Peer.new (public_key : PublicKey) (node_id : NodeId) (addresses : List Nat)
    (flags : Nat) (features : PeerFeatures) (supported_protocols : List Nat) : Peer :=
  { public_key, node_id, addresses, flags, banned_until := none,
    is_offline := false, features,
    connection_stats := { failed_attempts := 0, last_success := none, last_failure := none },
    supported_protocols }

/-- Modelled from the spec: `Peer::update` is a partial update — only
the fields supplied as `some` are replaced, every `none` field keeps
its stored value (spec section 4.2, `update_peer`). The argument order
follows the call sites in `peer_manager/manager.rs`. -/
def Peer.update (p : Peer) (node_id : Option NodeId) (net_addresses : Option (List Nat))
    (flags : Option Nat) (banned_until : Option (Option Nat))
    (offline : Option Bool) (features : Option PeerFeatures)
    (connection_stats : Option PeerConnectionStats)
    (supported_protocols : Option (List Nat)) : Peer :=
  { p with
    node_id := node_id.getD p.node_id,
    addresses := net_addresses.getD p.addresses,
    flags := flags.getD p.flags,
    banned_until := banned_until.getD p.banned_until,
    is_offline := offline.getD p.is_offline,
    features := features.getD p.features,
    connection_stats := connection_stats.getD p.connection_stats,
    supported_protocols := supported_protocols.getD p.supported_protocols }

/-- The error kinds of the peer directory (`PeerManagerError`; the enum
itself lives outside the staged files, its variants are named at the
match sites of `peer_manager/manager.rs`). -/
inductive PeerManagerError where
  | PeerNotFoundError
  | BannedPeer
  | StorageError
deriving DecidableEq, Repr

/-- Modelled from the spec: the peer directory store (`PeerStorage`,
declared in `peer_manager/peer_storage.rs`, not part of the staged
files) holds exactly one record per public key; modelled as the list of
stored records in storage order. -/
abbrev PeerStorage := List Peer

/-- Modelled from the spec: `add_peer` inserts a new record or replaces
the stored record with the same public key. -/
def PeerStorage.add_peer (st : PeerStorage) (peer : Peer) : PeerStorage :=
  if st.any (fun p => p.public_key == peer.public_key) then
    st.map (fun p => if p.public_key == peer.public_key then peer else p)
  else
    st ++ [peer]

/-- Modelled from the spec: exact lookup by node id, failing with
`PeerNotFound` when no record matches. -/
def PeerStorage.find_by_node_id (st : PeerStorage) (node_id : NodeId) :
    Except PeerManagerError Peer :=
  match st.find? (fun p => p.node_id == node_id) with
  | some peer => .ok peer
  | none => .error .PeerNotFoundError

/-- Modelled from the spec: exact lookup by public key, failing with
`PeerNotFound` when no record matches. -/
def PeerStorage.find_by_public_key (st : PeerStorage) (public_key : PublicKey) :
    Except PeerManagerError Peer :=
  match st.find? (fun p => p.public_key == public_key) with
  | some peer => .ok peer
  | none => .error .PeerNotFoundError

/-- Modelled from the spec: `update_peer` partially updates the record
stored under `public_key` (only fields supplied as `some` are replaced)
and fails with `PeerNotFound` when the key is unknown. -/
def PeerStorage.update_peer (st : PeerStorage) (public_key : PublicKey)
    (node_id : Option NodeId) (net_addresses : Option (List Nat))
    (flags : Option Nat) (banned_until : Option (Option Nat))
    (offline : Option Bool) (features : Option PeerFeatures)
    (connection_stats : Option PeerConnectionStats)
    (supported_protocols : Option (List Nat)) :
    Except PeerManagerError Unit × PeerStorage :=
  match st.find? (fun p => p.public_key == public_key) with
  | none => (.error .PeerNotFoundError, st)
  | some _ =>
    (.ok (), st.map (fun p =>
      if p.public_key == public_key then
        p.update node_id net_addresses flags banned_until offline features
          connection_stats supported_protocols
      else p))

/-- Modelled from the spec: the storage-level exact lookup behind
`direct_identity_node_id`: `PeerNotFound` when the node id is unknown,
`BannedPeer` when the stored record is banned. -/
def PeerStorage.direct_identity_node_id (st : PeerStorage) (node_id : NodeId) :
    Except PeerManagerError Peer :=
  match st.find_by_node_id node_id with
  | .error e => .error e
  | .ok peer => if peer.is_banned then .error .BannedPeer else .ok peer

/-- Modelled from the spec: `random_peers(n, excluded)` returns up to
`n` non-banned `COMMUNICATION_NODE` peers whose node ids are not in
`excluded`.  The spec leaves the order unpredictable; the embedding
abstracts the randomness as the stored order. -/
def PeerStorage.random_peers (st : PeerStorage) (n : Nat) (excluded : List NodeId) :
    List Peer :=
  (st.filter (fun p =>
    !p.is_banned &&
      PeerFeatures.contains p.features PeerFeatures.COMMUNICATION_NODE &&
      !(excluded.contains p.node_id))).take n

/-- The outcome signal of the `for_each` callback (`IterationResult` of
`tari_storage`). -/
inductive IterationResult where
  | Continue
  | Break
deriving DecidableEq, Repr

/-- Modelled from the spec: `for_each` visits every stored record in
storage order, threading an accumulator and stopping early when the
callback signals `Break`. -/
def PeerStorage.for_each {σ : Type} (st : PeerStorage) (init : σ)
    (f : σ → Peer → σ × IterationResult) : σ :=
  match st with
  | [] => init
  | peer :: rest =>
    match f init peer with
    | (acc, .Continue) => PeerStorage.for_each rest acc f
    | (acc, .Break) => acc

/-! ### Peer queries (`PeerQuery`)

Spec section 4.2: a `PeerQuery` carries an optional predicate, an
optional sort (`DistanceFrom(node_id)`) and an optional limit, evaluated
as filter, then sort, then limit.  The query engine itself
(`peer_manager/peer_query.rs`) is not part of the staged files and is
modelled from the spec. -/

/-- Ordering of peers by ascending XOR distance from a reference node
id (the `PeerQuerySortBy::DistanceFrom` order). -/
def distance_from_le (node_id : NodeId) (a b : Peer) : Prop :=
  NodeId.distance node_id a.node_id ≤ NodeId.distance node_id b.node_id

instance (node_id : NodeId) : DecidableRel (distance_from_le node_id) :=
  fun a b => Nat.decLe _ _

instance (node_id : NodeId) : IsTotal Peer (distance_from_le node_id) :=
  ⟨fun a b => Nat.le_total _ _⟩

instance (node_id : NodeId) : IsTrans Peer (distance_from_le node_id) :=
  ⟨fun _ _ _ => Nat.le_trans⟩

/-- Modelled from the spec: sort a peer list by ascending distance from
`node_id` (a stable sort realising `PeerQuerySortBy::DistanceFrom`). -/
def sort_by_distance_from (node_id : NodeId) (peers : List Peer) : List Peer :=
  peers.insertionSort (distance_from_le node_id)

/-- Modelled from the spec: `perform_query` evaluates a `PeerQuery`
as filter, then sort (here always `DistanceFrom`), then limit. -/
def PeerStorage.perform_query (st : PeerStorage) (select_where : Peer → Bool)
    (sort_from : Option NodeId) (limit : Option Nat) : List Peer :=
  let filtered := st.filter select_where
  let sorted :=
    match sort_from with
    | some node_id => sort_by_distance_from node_id filtered
    | none => filtered
  match limit with
  | some n => sorted.take n
  | none => sorted

/-! ### Configuration (`connectivity/config.rs`) -/

/-- The connectivity configuration.  The first five fields are
`ConnectivityConfig` of `connectivity/config.rs`; the two
`broadcast_cooldown_*` knobs are modelled from the spec (section 4.7
lists them as consulted by selection; `select_neighbours` reads them
from a `config` value whose declaration is not part of the staged
files). -/
structure ConnectivityConfig where
  desired_neighbouring_pool_size : Nat
  neighbouring_pool_refresh_interval : Nat
  desired_random_pool_size : Nat
  random_pool_refresh_interval : Nat
  propagation_random_sample_size : Nat
  broadcast_cooldown_max_attempts : Nat
  broadcast_cooldown_period : Nat
deriving DecidableEq, Repr

/-- `ConnectivityConfig::default` (`connectivity/config.rs`), with the
spec's defaults for the two cooldown knobs left at the values used in
examples. Durations are in seconds. -/
def ConnectivityConfig.default : ConnectivityConfig :=
  { desired_neighbouring_pool_size := 8,
    neighbouring_pool_refresh_interval := 10 * 60,
    desired_random_pool_size := 5,
    random_pool_refresh_interval := 2 * 60 * 60,
    propagation_random_sample_size := 2,
    broadcast_cooldown_max_attempts := 3,
    broadcast_cooldown_period := 30 * 60 }

/-! ### Neighbour selection (`connectivity/peer_selection.rs`) -/

/-- The predicate the source passes to `select_where` in
`select_neighbours` (`peer_selection.rs` lines 48-87), written in the
source's sequential early-return style: reject banned peers, reject
peers lacking the required features, then require the peer to be
connect-eligible — not offline AND (few failed attempts OR the last
failure long enough ago, a never-recorded failure counting as long
enough). `features` and `config` are free variables at the use site in
the source; the embedding takes them as parameters. -/
def select_neighbours_predicate (config : ConnectivityConfig) (features : PeerFeatures)
    (now : Nat) (peer : Peer) : Bool :=
  if peer.is_banned then false
  else if !(PeerFeatures.contains peer.features features) then false
  else
    let is_connect_eligible :=
      !peer.is_offline &&
        (decide (peer.connection_stats.failed_attempts ≤ config.broadcast_cooldown_max_attempts) ||
          ((peer.connection_stats.time_since_last_failure now).map
              (fun failed_since => decide (failed_since ≥ config.broadcast_cooldown_period))).getD
            true)
    if !is_connect_eligible then false else true

/-- `select_neighbours` (`peer_selection.rs` lines 31-109): build a
`PeerQuery` with the eligibility predicate, sort by
`DistanceFrom(node_id)` and limit to `n`.  The banned / filtered /
ineligible counters of the source only feed a debug log and do not
affect the result. -/
def select_neighbours (config : ConnectivityConfig) (features : PeerFeatures)
    (now : Nat) (peer_manager : PeerStorage) (node_id : NodeId) (n : Nat) : List Peer :=
  peer_manager.perform_query (select_neighbours_predicate config features now)
    (some node_id) (some n)

/-! ### Peer pools (`connectivity/peer_pool.rs`, `peer_pools.rs`) -/

/-- `PeerPoolType` (`peer_pool.rs`). -/
inductive PeerPoolType where
  | Neighbours
  | Random
deriving DecidableEq, Repr

/-- `PoolStatus` (`peer_pool.rs`). -/
inductive PoolStatus where
  | Uninitialized
  | Ok
  | Partial
  | Failed
deriving DecidableEq, Repr

/-- `PoolParams` (`peer_pool.rs`). -/
structure PoolParams where
  num_desired : Nat
  stale_interval : Nat
  min_required : Option Nat
deriving DecidableEq, Repr

/-- A connection handle (`PeerConnection`, owned by the connection
manager, outside the staged files): the connectivity core only reads
its `peer_node_id()`. -/
structure PeerConnection where
  peer_node_id : NodeId
deriving DecidableEq, Repr

/-- `PeerPool` (`peer_pool.rs`). -/
structure PeerPool where
  id : Nat
  status : PoolStatus
  params : PoolParams
  connections : List PeerConnection
  pool_type : PeerPoolType
  last_refreshed : Option Nat
  refresh_in_progress : Bool
deriving DecidableEq, Repr

/-- `PeerPool::new` (`peer_pool.rs` lines 82-92).  The process-wide
atomic id counter (`get_next_id`) is modelled by passing the fresh id
explicitly. -/
def PeerPool.new (pool_type : PeerPoolType) (params : PoolParams) (id : Nat) : PeerPool :=
  { id, pool_type, params,
    status := .Uninitialized,
    connections := [],
    last_refreshed := none,
    refresh_in_progress := false }

/-- `PeerPool::is_stale` (`peer_pool.rs` lines 106-110): stale iff
never refreshed, or refreshed longer than `stale_interval` ago. -/
def PeerPool.is_stale (pool : PeerPool) (now : Nat) : Bool :=
  (pool.last_refreshed.map (fun instant => decide (now - instant > pool.params.stale_interval))).getD
    true

/-- `PeerPool::get_node_ids` (`peer_pool.rs` lines 112-118): the node
id of each current connection, collected in stored order. -/
def PeerPool.get_node_ids (pool : PeerPool) : List NodeId :=
  pool.connections.map (fun conn => conn.peer_node_id)

/-- `PeerPools` (`peer_pools.rs`). -/
structure PeerPools where
  pools : List PeerPool
deriving DecidableEq, Repr

/-- `PeerPools::new` (`peer_pools.rs`). -/
def PeerPools.new : PeerPools := ⟨[]⟩

/-- `PeerPools::get_mut` (`peer_pools.rs` lines 34-36): lookup by pool
id (the embedding returns the pool by value). -/
def PeerPools.get_mut (c : PeerPools) (pool_id : Nat) : Option PeerPool :=
  c.pools.find? (fun p => p.id == pool_id)

/-- `PeerPools::get_by_type` (`peer_pools.rs` lines 38-40). -/
def PeerPools.get_by_type (c : PeerPools) (pool_type : PeerPoolType) : Option PeerPool :=
  c.pools.find? (fun p => p.pool_type == pool_type)

/-- `PeerPools::push` (`peer_pools.rs` lines 42-44). -/
def PeerPools.push (c : PeerPools) (pool : PeerPool) : PeerPools :=
  ⟨c.pools ++ [pool]⟩

/-! ### Connectivity manager actor (`connectivity/manager.rs`) -/

/-- The connectivity error kinds used by the manager and requester
(`connectivity/error.rs`, not part of the staged files; the variant
names appear at the use sites in `manager.rs` and `requester.rs`). -/
inductive ConnectivityError where
  | PoolNotFoundbyId
  | ActorDisconnected
  | ActorResponseCancelled
  | PeerManagerError (e : PeerManagerError)
deriving DecidableEq, Repr

/-- The state a `ConnectivityManagerActor` owns that the embedded
request handlers touch: the configuration, the active pools, the peer
directory, the local node id, and the next value of the process-wide
pool id counter. -/
structure ActorState where
  config : ConnectivityConfig
  active_pools : PeerPools
  peer_manager : PeerStorage
  node_id : NodeId
  next_pool_id : Nat
deriving DecidableEq, Repr

/-- `ConnectivityManagerActor::get_pool_params_by_type`
(`manager.rs` lines 166-180). -/
def ActorState.get_pool_params_by_type (st : ActorState) (pool_type : PeerPoolType) :
    PoolParams :=
  match pool_type with
  | .Neighbours =>
    { num_desired := st.config.desired_neighbouring_pool_size,
      stale_interval := st.config.neighbouring_pool_refresh_interval,
      min_required := none }
  | .Random =>
    { num_desired := st.config.desired_random_pool_size,
      stale_interval := st.config.random_pool_refresh_interval,
      min_required := some 0 }

/-- `ConnectivityManagerActor::select_peers` (`manager.rs` lines
222-247): for a Neighbours pool run `select_neighbours`; for a Random
pool collect the current Neighbours pool's node ids and pass them to
`random_peers` as the exclusion list, then keep the node ids of the
returned peers.  Modelled from the spec for the Random arm's exclusion
argument: the source binds the neighbour ids to `neighbours` but then
names an undefined variable `excluded` in the `random_peers` call (a
slip; spec section 4.4 says the exclusion list is the neighbour pool's
node ids). -/
def ActorState.select_peers (st : ActorState) (now : Nat) (pool : PeerPool) :
    Except ConnectivityError (List NodeId) :=
  match pool.pool_type with
  | .Neighbours =>
    .ok ((select_neighbours st.config PeerFeatures.COMMUNICATION_NODE now
      st.peer_manager st.node_id pool.params.num_desired).map (fun p => p.node_id))
  | .Random =>
    let neighbours :=
      ((st.active_pools.get_by_type .Neighbours).map PeerPool.get_node_ids).getD []
    .ok ((st.peer_manager.random_peers pool.params.num_desired neighbours).map
      (fun p => p.node_id))

/-- What a call to `refresh_pool_if_stale` does: fail the pool lookup,
return early because the pool is fresh, or dispatch a refresh task for
the pool's type (`manager.rs` lines 195-208 spawn
`refresh_neighbour_pool` / `refresh_random_pool`, whose bodies are
empty in the source). -/
inductive RefreshOutcome where
  | pool_not_found
  | fresh_noop
  | dispatched (pool_type : PeerPoolType)
deriving DecidableEq, Repr

/-- `ConnectivityManagerActor::refresh_pool_if_stale` (`manager.rs`
lines 182-209): look the pool up by id (`PoolNotFoundbyId` on a miss),
return `Ok(())` without doing anything when the pool is not stale, and
otherwise dispatch the per-type refresh task.  The dispatched task
bodies (`refresh_neighbour_pool`, `refresh_random_pool`, lines 249-265)
are empty in the source, so the actor state is returned unchanged in
every case. -/
def ActorState.refresh_pool_if_stale (st : ActorState) (now : Nat) (pool_id : Nat) :
    RefreshOutcome × ActorState :=
  match st.active_pools.get_mut pool_id with
  | none => (.pool_not_found, st)
  | some pool =>
    if !(pool.is_stale now) then (.fresh_noop, st)
    else (.dispatched pool.pool_type, st)

/-- `ConnectivityManagerActor::add_pool` (`manager.rs` lines 158-164):
create a pool with the per-type parameters, push it onto the active
pools, then run `refresh_pool_if_stale` on it; the fresh pool id comes
from the process-wide counter, modelled by `next_pool_id`. -/
def ActorState.add_pool (st : ActorState) (now : Nat) (pool_type : PeerPoolType) :
    Except ConnectivityError Unit × ActorState :=
  let pool := PeerPool.new pool_type (st.get_pool_params_by_type pool_type) st.next_pool_id
  let st1 := { st with
    active_pools := st.active_pools.push pool,
    next_pool_id := st.next_pool_id + 1 }
  match st1.refresh_pool_if_stale now pool.id with
  | (.pool_not_found, st2) => (.error .PoolNotFoundbyId, st2)
  | (_, st2) => (.ok (), st2)

/-- The `AddPool` arm of `ConnectivityManagerActor::handle_request`
(`manager.rs` lines 123-130): when a pool of the requested type already
exists, reply `Ok(())` and return without touching the state; otherwise
run `add_pool` and reply with its result. -/
def ActorState.handle_add_pool (st : ActorState) (now : Nat) (pool_type : PeerPoolType) :
    Except ConnectivityError Unit × ActorState :=
  if st.active_pools.pools.any (fun pool => pool.pool_type == pool_type) then
    (.ok (), st)
  else
    st.add_pool now pool_type

/-! ### Peer manager surface (`peer_manager/manager.rs`)

The `PeerManager` wraps `PeerStorage` in a reader-writer lock; the
embedding passes the storage state explicitly and returns the new
state. -/

/-- `PeerManager::set_last_connect_success` (`manager.rs` lines
93-108): find the peer by node id, record a connection success on its
stats, and write the stats back together with `is_offline = false`
(every other `update_peer` field is `None`). -/
def PeerManager.set_last_connect_success (st : PeerStorage) (now : Nat) (node_id : NodeId) :
    Except PeerManagerError Unit × PeerStorage :=
  match st.find_by_node_id node_id with
  | .error e => (.error e, st)
  | .ok peer =>
    let stats := peer.connection_stats.set_connection_success now
    st.update_peer peer.public_key none none none none (some false) none (some stats) none

/-- `PeerManager::set_last_connect_failed` (`manager.rs` lines
111-126): find the peer by node id, record a connection failure on its
stats, and write only the stats back (every other `update_peer` field,
`is_offline` included, is `None`). -/
def PeerManager.set_last_connect_failed (st : PeerStorage) (now : Nat) (node_id : NodeId) :
    Except PeerManagerError Unit × PeerStorage :=
  match st.find_by_node_id node_id with
  | .error e => (.error e, st)
  | .ok peer =>
    let stats := peer.connection_stats.set_connection_failed now
    st.update_peer peer.public_key none none none none none none (some stats) none

/-- `PeerManager::add_or_update_online_peer` (`manager.rs` lines
167-206): on a known public key, record a connection success, update
node id, addresses, `is_offline = false` and features, store the result
and return it; on `PeerNotFound`, insert a fresh record and return the
stored copy; any other lookup error is surfaced. -/
def PeerManager.add_or_update_online_peer (st : PeerStorage) (now : Nat)
    (pubkey : PublicKey) (node_id : NodeId) (net_addresses : List Nat)
    (peer_features : PeerFeatures) : Except PeerManagerError Peer × PeerStorage :=
  match st.find_by_public_key pubkey with
  | .ok peer =>
    let peer1 := { peer with connection_stats := peer.connection_stats.set_connection_success now }
    let peer2 := peer1.update (some node_id) (some net_addresses) none none
      (some false) (some peer_features) none none
    (.ok peer2, st.add_peer peer2)
  | .error .PeerNotFoundError =>
    let st1 := st.add_peer (Peer.new pubkey node_id net_addresses 0 peer_features [])
    (st1.find_by_public_key pubkey, st1)
  | .error e => (.error e, st)

/-- `PeerManager::direct_identity_node_id` (`manager.rs` lines
209-215): run the storage-level exact lookup and translate both
`PeerNotFound` and `BannedPeer` to `Ok(None)`; any other error is
surfaced. -/
def PeerManager.direct_identity_node_id (st : PeerStorage) (node_id : NodeId) :
    Except PeerManagerError (Option Peer) :=
  match st.direct_identity_node_id node_id with
  | .ok peer => .ok (some peer)
  | .error .PeerNotFoundError => .ok none
  | .error .BannedPeer => .ok none
  | .error e => .error e

/-- `PeerManager::update_each` (`manager.rs` lines 310-327): walk the
store with `for_each`, collecting the replacement `f` returns for each
visited peer; then `add_peer` each collected replacement and return how
many there were. -/
def PeerManager.update_each (st : PeerStorage) (f : Peer → Option Peer) :
    Except PeerManagerError (Nat × PeerStorage) :=
  let peers_to_update := st.for_each ([] : List Peer) (fun acc peer =>
    match f peer with
    | some peer => (acc ++ [peer], .Continue)
    | none => (acc, .Continue))
  let updated_count := peers_to_update.length
  let st1 := peers_to_update.foldl PeerStorage.add_peer st
  .ok (updated_count, st1)

/-! ## Concrete fixtures used by counterexamples and witnesses -/

/-- A pool holding two connections to the same node id. -/
def pool_with_duplicate_connections : PeerPool :=
  { id := 0, status := .Uninitialized,
    params := { num_desired := 2, stale_interval := 5, min_required := none },
    connections := [⟨7⟩, ⟨7⟩],
    pool_type := .Neighbours,
    last_refreshed := none,
    refresh_in_progress := false }

/-- A never-refreshed (hence stale) Neighbours pool whose
`refresh_in_progress` flag is raised. -/
def stale_pool_mid_refresh : PeerPool :=
  { id := 0, status := .Uninitialized,
    params := { num_desired := 8, stale_interval := 600, min_required := none },
    connections := [],
    pool_type := .Neighbours,
    last_refreshed := none,
    refresh_in_progress := true }

/-- An actor whose only pool is `stale_pool_mid_refresh`. -/
def actor_with_stale_refreshing_pool : ActorState :=
  { config := ConnectivityConfig.default,
    active_pools := ⟨[stale_pool_mid_refresh]⟩,
    peer_manager := [],
    node_id := 0,
    next_pool_id := 1 }

/-- An actor that already owns a Neighbours pool. -/
def actor_with_neighbour_pool : ActorState :=
  { config := ConnectivityConfig.default,
    active_pools := ⟨[PeerPool.new .Neighbours
      { num_desired := 8, stale_interval := 600, min_required := none } 0]⟩,
    peer_manager := [],
    node_id := 0,
    next_pool_id := 1 }

/-- A communication-node peer with node id 1 (member of the neighbour
pool fixture below). -/
def neighbour_member_peer : Peer :=
  { public_key := 1, node_id := 1, addresses := [], flags := 0, banned_until := none,
    is_offline := false, features := PeerFeatures.COMMUNICATION_NODE,
    connection_stats := { failed_attempts := 0, last_success := none, last_failure := none },
    supported_protocols := [] }
/-- A communication-node peer with node id 2, outside the neighbour
pool fixture. -/
def non_neighbour_peer : Peer :=
  { public_key := 2, node_id := 2, addresses := [], flags := 0, banned_until := none,
    is_offline := false, features := PeerFeatures.COMMUNICATION_NODE,
    connection_stats := { failed_attempts := 0, last_success := none, last_failure := none },
    supported_protocols := [] }
/-- A Neighbours pool currently connected to node id 1. -/
def neighbours_pool_fixture : PeerPool :=
  { id := 0, status := .Ok,
    params := { num_desired := 8, stale_interval := 600, min_required := none },
    connections := [⟨1⟩],
    pool_type := .Neighbours,
    last_refreshed := some 0,
    refresh_in_progress := false }
/-- A Random pool awaiting selection. -/
def random_pool_fixture : PeerPool :=
  { id := 1, status := .Uninitialized,
    params := { num_desired := 5, stale_interval := 7200, min_required := some 0 },
    connections := [],
    pool_type := .Random,
    last_refreshed := none,
    refresh_in_progress := false }
/-- An actor holding the neighbour pool fixture and a directory with
peers 1 and 2. -/
def actor_for_random_selection : ActorState :=
  { config := ConnectivityConfig.default,
    active_pools := ⟨[neighbours_pool_fixture]⟩,
    peer_manager := [neighbour_member_peer, non_neighbour_peer],
    node_id := 0,
    next_pool_id := 2 }
/-- A single stored peer, offline with one failed attempt. -/
def offline_failed_peer : Peer :=
  { public_key := 3, node_id := 3, addresses := [], flags := 0, banned_until := none,
    is_offline := true, features := PeerFeatures.COMMUNICATION_NODE,
    connection_stats := { failed_attempts := 1, last_success := none, last_failure := some 0 },
    supported_protocols := [] }
/-- The admission condition exactly as the claim words it: not banned,
required features present, and (not offline OR few failed attempts OR
last failure long enough ago). -/
def neighbour_admission_claimed (config : ConnectivityConfig) (features : PeerFeatures)
    (now : Nat) (peer : Peer) : Prop :=
  peer.is_banned = false ∧
  PeerFeatures.contains peer.features features = true ∧
  (peer.is_offline = false ∨
    peer.connection_stats.failed_attempts ≤ config.broadcast_cooldown_max_attempts ∨
    (∃ d, peer.connection_stats.time_since_last_failure now = some d ∧
      config.broadcast_cooldown_period ≤ d))
/-- The admission condition as the source computes it: not banned,
required features present, not offline, AND (few failed attempts OR no
failure ever recorded OR last failure long enough ago). -/
def neighbour_admission_amended (config : ConnectivityConfig) (features : PeerFeatures)
    (now : Nat) (peer : Peer) : Prop :=
  peer.is_banned = false ∧
  PeerFeatures.contains peer.features features = true ∧
  peer.is_offline = false ∧
  (peer.connection_stats.failed_attempts ≤ config.broadcast_cooldown_max_attempts ∨
    peer.connection_stats.last_failure = none ∨
    (∃ d, peer.connection_stats.time_since_last_failure now = some d ∧
      config.broadcast_cooldown_period ≤ d))
/-- An unbanned communication-node peer marked offline with zero failed
attempts: admitted by the claim's disjunctive condition, rejected by
the source's conjunctive one. -/
def offline_zero_failure_peer : Peer :=
  { public_key := 4, node_id := 4, addresses := [], flags := 0, banned_until := none,
    is_offline := true, features := PeerFeatures.COMMUNICATION_NODE,
    connection_stats := { failed_attempts := 0, last_success := none, last_failure := none },
    supported_protocols := [] }

/-! ## Theorems -/

/-- C9: a freshly constructed `PeerPool` has `last_refreshed = None`,
so `is_stale()` returns `true` at every clock value and for every pool
type and parameter choice; consequently the `refresh_pool_if_stale`
call issued right after `AddPool` pushes the pool proceeds past the
staleness guard and dispatches a refresh for the pool's type. -/
theorem new_pool_is_stale_and_first_refresh_proceeds
    (pool_type : PeerPoolType) (params : PoolParams) (id now : Nat)
    (config : ConnectivityConfig) (storage : PeerStorage) (nid : NodeId) (next : Nat) :
    (PeerPool.new pool_type params id).is_stale now = true ∧
    (ActorState.refresh_pool_if_stale
        { config, active_pools := ⟨[PeerPool.new pool_type params id]⟩,
          peer_manager := storage, node_id := nid, next_pool_id := next } now id).fst
      = RefreshOutcome.dispatched pool_type := by
  constructor
  · rfl
  · simp [ActorState.refresh_pool_if_stale, PeerPools.get_mut, PeerPool.new,
      PeerPool.is_stale]

/-- C7 (counterexample): `get_node_ids` does not deduplicate — on a
pool whose connection list holds two connections to node id 7 it
returns the node id twice. -/
theorem get_node_ids_keeps_duplicates :
    pool_with_duplicate_connections.get_node_ids = [7, 7] ∧
    ¬ pool_with_duplicate_connections.get_node_ids.Nodup := by
  exact ⟨rfl, by decide⟩

/-- C7 (amended): `get_node_ids` returns one node id per stored
connection, in stored order — the list is as long as the connection
list and its `i`-th entry is the `i`-th connection's node id; no
deduplication is applied. -/
theorem get_node_ids_in_stored_order (pool : PeerPool) (i : Nat)
    (h : i < pool.connections.length) :
    pool.get_node_ids.length = pool.connections.length ∧
    pool.get_node_ids.getD i 0 = (pool.connections.getD i ⟨0⟩).peer_node_id := by
  constructor
  · simp [PeerPool.get_node_ids]
  · simp [PeerPool.get_node_ids, List.getD_eq_getElem?_getD, List.getElem?_map,
      List.getElem?_eq_getElem h]

/-- C7 (witness for the amended theorem): evaluated on the two-element
pool at index 0. -/
theorem get_node_ids_in_stored_order_witness :
    pool_with_duplicate_connections.get_node_ids.length
        = pool_with_duplicate_connections.connections.length ∧
    pool_with_duplicate_connections.get_node_ids.getD 0 0
        = (pool_with_duplicate_connections.connections.getD 0 ⟨0⟩).peer_node_id :=
  get_node_ids_in_stored_order pool_with_duplicate_connections 0 (by decide)

/-- C4: when a pool of the requested type already exists among the
active pools, handling `AddPool` replies `Ok(())` and leaves the actor
state — in particular the pool collection — unchanged, so no second
pool of that type is created. -/
theorem handle_add_pool_idempotent (st : ActorState) (now : Nat) (pool_type : PeerPoolType)
    (h : ∃ pool ∈ st.active_pools.pools, pool.pool_type = pool_type) :
    st.handle_add_pool now pool_type = (.ok (), st) := by
  obtain ⟨pool, hmem, htype⟩ := h
  unfold ActorState.handle_add_pool
  rw [if_pos]
  exact List.any_eq_true.2 ⟨pool, hmem, by simp [htype]⟩

/-- C4 (witness): adding a Neighbours pool to an actor that already
owns one replies `Ok(())` and changes nothing. -/
theorem handle_add_pool_idempotent_witness :
    actor_with_neighbour_pool.handle_add_pool 0 .Neighbours
      = (.ok (), actor_with_neighbour_pool) :=
  handle_add_pool_idempotent actor_with_neighbour_pool 0 .Neighbours
    ⟨PeerPool.new .Neighbours
      { num_desired := 8, stale_interval := 600, min_required := none } 0,
      by decide, rfl⟩

/-- C3 (counterexample): `refresh_pool_if_stale` never reads
`refresh_in_progress` — on a stale pool whose flag is raised the call
is not the fresh-pool no-op: it dispatches a (second) refresh. -/
theorem refresh_pool_if_stale_ignores_refresh_in_progress :
    stale_pool_mid_refresh.refresh_in_progress = true ∧
    (actor_with_stale_refreshing_pool.refresh_pool_if_stale 0 0).fst
      = RefreshOutcome.dispatched .Neighbours ∧
    (actor_with_stale_refreshing_pool.refresh_pool_if_stale 0 0).fst
      ≠ RefreshOutcome.fresh_noop := by
  refine ⟨rfl, rfl, by decide⟩

/-- C3 (amended): `refresh_pool_if_stale` guards only on staleness: for
a pool that is found, the call is the `Ok(())` no-op exactly when the
pool is not stale, whatever `refresh_in_progress` holds; and the call
itself leaves the actor state unchanged (the dispatched refresh task
bodies are empty in the source). -/
theorem refresh_pool_if_stale_guards_only_on_staleness
    (st : ActorState) (now pool_id : Nat) (pool : PeerPool)
    (hfind : st.active_pools.get_mut pool_id = some pool) :
    ((st.refresh_pool_if_stale now pool_id).fst = RefreshOutcome.fresh_noop
        ↔ pool.is_stale now = false) ∧
    (st.refresh_pool_if_stale now pool_id).snd = st := by
  unfold ActorState.refresh_pool_if_stale
  rw [hfind]
  by_cases hs : pool.is_stale now
  · simp [hs]
  · simp [hs]

/-- C3 (witness for the amended theorem): evaluated on the stale
mid-refresh fixture. -/
theorem refresh_pool_if_stale_guards_only_on_staleness_witness :
    (((actor_with_stale_refreshing_pool.refresh_pool_if_stale 0 0).fst
          = RefreshOutcome.fresh_noop
        ↔ stale_pool_mid_refresh.is_stale 0 = false) ∧
      (actor_with_stale_refreshing_pool.refresh_pool_if_stale 0 0).snd
        = actor_with_stale_refreshing_pool) :=
  refresh_pool_if_stale_guards_only_on_staleness
    actor_with_stale_refreshing_pool 0 0 stale_pool_mid_refresh rfl

/-- C5 (counterexample): on an empty directory the node-id lookup
fails with `PeerNotFound`, yet `direct_identity_node_id` returns
`Ok(None)` — the miss is not surfaced as an error (the source's own
test expects exactly this). -/
theorem direct_identity_node_id_not_found_is_ok_none :
    PeerManager.direct_identity_node_id [] 0 = .ok none ∧
    PeerStorage.find_by_node_id [] 0 = .error .PeerNotFoundError :=
  ⟨rfl, rfl⟩

/-- C5 (amended): `direct_identity_node_id` translates both
`BannedPeer` and `PeerNotFound` lookup results to `Ok(None)`; a found,
unbanned peer is returned as `Ok(Some(peer))`, and any other error is
surfaced unchanged. -/
theorem direct_identity_node_id_translates_lookup_errors
    (st : PeerStorage) (node_id : NodeId) :
    (∀ peer, st.direct_identity_node_id node_id = .ok peer →
        PeerManager.direct_identity_node_id st node_id = .ok (some peer)) ∧
    ((st.direct_identity_node_id node_id = .error .PeerNotFoundError ∨
        st.direct_identity_node_id node_id = .error .BannedPeer) →
      PeerManager.direct_identity_node_id st node_id = .ok none) ∧
    (st.direct_identity_node_id node_id = .error .StorageError →
      PeerManager.direct_identity_node_id st node_id = .error .StorageError) := by
  unfold PeerManager.direct_identity_node_id
  refine ⟨?_, ?_, ?_⟩
  · intro peer hp
    rw [hp]
  · rintro (hp | hp) <;> rw [hp]
  · intro hp
    rw [hp]

/-- The collection pass of `update_each` visits every stored peer in
order and accumulates exactly the `some` results of `f`. -/
theorem for_each_collect_eq_filterMap (st : PeerStorage) (f : Peer → Option Peer)
    (acc : List Peer) :
    st.for_each acc (fun a peer =>
        match f peer with
        | some peer => (a ++ [peer], .Continue)
        | none => (a, .Continue))
      = acc ++ st.filterMap f := by
  induction st generalizing acc with
  | nil => simp [PeerStorage.for_each]
  | cons p rest ih =>
    unfold PeerStorage.for_each
    cases hf : f p with
    | some q => simp [hf, ih, List.filterMap_cons]
    | none => simp [hf, ih, List.filterMap_cons]

/-- The number of peers a function maps to `some` equals the length of
the collected replacement list. -/
theorem length_filterMap_eq_countP_isSome (st : List Peer) (f : Peer → Option Peer) :
    (st.filterMap f).length = st.countP (fun p => (f p).isSome) := by
  induction st with
  | nil => simp
  | cons p rest ih =>
    cases hf : f p with
    | some q => simp [List.filterMap_cons, hf, List.countP_cons, ih]
    | none => simp [List.filterMap_cons, hf, List.countP_cons, ih]

/-- C10: `update_each` applies `f` to every peer of the snapshot taken
before any write, re-inserts (via `add_peer`) exactly the peers for
which `f` returned a replacement, and returns `Ok(k)` with `k` the
number of peers for which `f` returned `Some`. -/
theorem update_each_updates_exactly_some_results (st : PeerStorage)
    (f : Peer → Option Peer) :
    PeerManager.update_each st f
      = .ok (st.countP (fun p => (f p).isSome),
             (st.filterMap f).foldl PeerStorage.add_peer st) := by
  unfold PeerManager.update_each
  rw [for_each_collect_eq_filterMap]
  simp [length_filterMap_eq_countP_isSome]

/-- A peer returned by `random_peers(n, excluded)` never carries an
excluded node id. -/
theorem random_peers_not_excluded (st : PeerStorage) (n : Nat) (excluded : List NodeId)
    (p : Peer) (hmem : p ∈ st.random_peers n excluded) : p.node_id ∉ excluded := by
  have hf : p ∈ st.filter (fun p =>
      !p.is_banned &&
        PeerFeatures.contains p.features PeerFeatures.COMMUNICATION_NODE &&
        !(excluded.contains p.node_id)) :=
    List.take_subset _ _ hmem
  have hpred := (List.mem_filter.1 hf).2
  simp only [Bool.and_eq_true, Bool.not_eq_true'] at hpred
  intro hin
  have : excluded.contains p.node_id = true := by
    simpa [List.contains, List.elem_iff] using hin
  rw [this] at hpred
  exact absurd hpred.2 (by simp)

/-- C2 (intent, modelled select_peers): selecting peers for a Random
pool passes the current Neighbours pool's node ids as the exclusion
list of `random_peers`, so no selected node id belongs to the
Neighbours pool. -/
theorem select_peers_random_excludes_neighbour_ids
    (st : ActorState) (now : Nat) (pool nb : PeerPool)
    (hp : pool.pool_type = .Random)
    (hn : st.active_pools.get_by_type .Neighbours = some nb) :
    ∃ ids, st.select_peers now pool = .ok ids ∧
      ∀ nid ∈ ids, nid ∉ nb.get_node_ids := by
  unfold ActorState.select_peers
  rw [hp, hn]
  refine ⟨_, rfl, ?_⟩
  intro nid hmem
  simp only [List.mem_map, Option.map_some, Option.getD_some] at hmem
  obtain ⟨p, hpmem, hpnid⟩ := hmem
  subst hpnid
  exact random_peers_not_excluded _ _ _ _ hpmem

/-- C2 (witness): on the concrete fixture the Random selection yields
ids disjoint from the neighbour pool's. -/
theorem select_peers_random_excludes_neighbour_ids_witness :
    ∃ ids, actor_for_random_selection.select_peers 0 random_pool_fixture = .ok ids ∧
      ∀ nid ∈ ids, nid ∉ neighbours_pool_fixture.get_node_ids :=
  select_peers_random_excludes_neighbour_ids actor_for_random_selection 0
    random_pool_fixture neighbours_pool_fixture rfl (by decide)

/-- A successful node-id lookup returns a stored peer carrying that
node id. -/
theorem find_by_node_id_ok (st : PeerStorage) (node_id : NodeId) (peer : Peer)
    (h : st.find_by_node_id node_id = .ok peer) :
    peer ∈ st ∧ peer.node_id = node_id := by
  unfold PeerStorage.find_by_node_id at h
  cases hf : st.find? (fun p => p.node_id == node_id) with
  | none => rw [hf] at h; cases h
  | some q =>
    rw [hf] at h
    cases h
    exact ⟨List.mem_of_find?_eq_some hf, by simpa using List.find?_some hf⟩

/-- A successful public-key lookup returns a stored peer carrying that
public key. -/
theorem find_by_public_key_ok (st : PeerStorage) (public_key : PublicKey) (peer : Peer)
    (h : st.find_by_public_key public_key = .ok peer) :
    peer ∈ st ∧ peer.public_key = public_key := by
  unfold PeerStorage.find_by_public_key at h
  cases hf : st.find? (fun p => p.public_key == public_key) with
  | none => rw [hf] at h; cases h
  | some q =>
    rw [hf] at h
    cases h
    exact ⟨List.mem_of_find?_eq_some hf, by simpa using List.find?_some hf⟩

/-- Mapping a node-id-preserving function over the store commutes with
the first node-id match. -/
theorem find_by_node_id_map (st : PeerStorage) (node_id : NodeId) (peer : Peer)
    (g : Peer → Peer) (hg : ∀ p, (g p).node_id = p.node_id)
    (hfind : st.find? (fun p => p.node_id == node_id) = some peer) :
    (st.map g).find? (fun p => p.node_id == node_id) = some (g peer) := by
  induction st with
  | nil => cases hfind
  | cons q rest ih =>
    by_cases hq : q.node_id == node_id
    · rw [List.find?_cons_of_pos (p := fun x : Peer => x.node_id == node_id) _ hq] at hfind
      cases hfind
      exact List.find?_cons_of_pos (p := fun x : Peer => x.node_id == node_id) _
        (by simpa [hg] using hq)
    · rw [List.find?_cons_of_neg (p := fun x : Peer => x.node_id == node_id) _ hq] at hfind
      rw [List.map_cons,
        List.find?_cons_of_neg (p := fun x : Peer => x.node_id == node_id) _
          (by simpa [hg] using hq)]
      exact ih hfind

/-- `find_by_node_id` succeeds exactly on the store's first node-id
match. -/
theorem find_by_node_id_ok_iff (st : PeerStorage) (node_id : NodeId) (peer : Peer) :
    st.find_by_node_id node_id = .ok peer
      ↔ st.find? (fun p => p.node_id == node_id) = some peer := by
  unfold PeerStorage.find_by_node_id
  cases st.find? (fun p => p.node_id == node_id) <;> simp

/-- C8: `set_last_connect_success` rewrites the found peer's connection
stats with a recorded success and additionally clears `is_offline`,
while `set_last_connect_failed` rewrites only the connection stats with
a recorded failure and leaves every other field — `is_offline`
included — unchanged; both report `Ok(())`. -/
theorem set_last_connect_stats_frame (st : PeerStorage) (now : Nat)
    (node_id : NodeId) (peer : Peer)
    (hfind : st.find_by_node_id node_id = .ok peer) :
    (PeerManager.set_last_connect_success st now node_id).fst = .ok () ∧
    (PeerManager.set_last_connect_success st now node_id).snd.find_by_node_id node_id
      = .ok { peer with
          connection_stats := peer.connection_stats.set_connection_success now,
          is_offline := false } ∧
    (PeerManager.set_last_connect_failed st now node_id).fst = .ok () ∧
    (PeerManager.set_last_connect_failed st now node_id).snd.find_by_node_id node_id
      = .ok { peer with
          connection_stats := peer.connection_stats.set_connection_failed now } := by
  have hfq : st.find? (fun p => p.node_id == node_id) = some peer :=
    (find_by_node_id_ok_iff st node_id peer).1 hfind
  have hmem : peer ∈ st := List.mem_of_find?_eq_some hfq
  have hpk : ∃ q, st.find? (fun p => p.public_key == peer.public_key) = some q :=
    Option.isSome_iff_exists.1 (List.find?_isSome.2 ⟨peer, hmem, by simp⟩)
  obtain ⟨q, hq⟩ := hpk
  have hsucc : PeerManager.set_last_connect_success st now node_id
      = st.update_peer peer.public_key none none none none (some false) none
        (some (peer.connection_stats.set_connection_success now)) none := by
    unfold PeerManager.set_last_connect_success
    rw [hfind]
  have hfailed : PeerManager.set_last_connect_failed st now node_id
      = st.update_peer peer.public_key none none none none none none
        (some (peer.connection_stats.set_connection_failed now)) none := by
    unfold PeerManager.set_last_connect_failed
    rw [hfind]
  rw [hsucc, hfailed]
  unfold PeerStorage.update_peer
  rw [hq]
  refine ⟨rfl, ?_, rfl, ?_⟩
  · rw [find_by_node_id_ok_iff]
    have := find_by_node_id_map st node_id peer
      (fun p => if p.public_key == peer.public_key then
        p.update none none none none (some false) none
          (some (peer.connection_stats.set_connection_success now)) none
      else p)
      (fun p => by by_cases h : p.public_key == peer.public_key <;> simp [h, Peer.update])
      hfq
    rw [this]
    simp [Peer.update]
  · rw [find_by_node_id_ok_iff]
    have := find_by_node_id_map st node_id peer
      (fun p => if p.public_key == peer.public_key then
        p.update none none none none none none
          (some (peer.connection_stats.set_connection_failed now)) none
      else p)
      (fun p => by by_cases h : p.public_key == peer.public_key <;> simp [h, Peer.update])
      hfq
    rw [this]
    simp [Peer.update]

/-- C8 (witness): evaluated on a one-peer store. -/
theorem set_last_connect_stats_frame_witness :
    (PeerManager.set_last_connect_success [offline_failed_peer] 5 3).fst = .ok () ∧
    (PeerManager.set_last_connect_success [offline_failed_peer] 5 3).snd.find_by_node_id 3
      = .ok { offline_failed_peer with
          connection_stats := offline_failed_peer.connection_stats.set_connection_success 5,
          is_offline := false } ∧
    (PeerManager.set_last_connect_failed [offline_failed_peer] 5 3).fst = .ok () ∧
    (PeerManager.set_last_connect_failed [offline_failed_peer] 5 3).snd.find_by_node_id 3
      = .ok { offline_failed_peer with
          connection_stats := offline_failed_peer.connection_stats.set_connection_failed 5 } :=
  set_last_connect_stats_frame [offline_failed_peer] 5 3 offline_failed_peer rfl

/-- Replacing the records keyed by `q.public_key` makes the first
public-key match `q` itself whenever any match exists. -/
theorem find?_map_replace (st : List Peer) (q : Peer) :
    (st.map (fun p => if p.public_key == q.public_key then q else p)).find?
        (fun p => p.public_key == q.public_key)
      = if st.any (fun p => p.public_key == q.public_key) then some q else none := by
  induction st with
  | nil => simp
  | cons p rest ih =>
    by_cases hp : (p.public_key == q.public_key) = true
    · rw [List.map_cons, if_pos hp,
        List.find?_cons_of_pos (p := fun x : Peer => x.public_key == q.public_key) _
          (by simp),
        List.any_cons, hp, Bool.true_or, if_pos rfl]
    · rw [List.map_cons, if_neg hp,
        List.find?_cons_of_neg (p := fun x : Peer => x.public_key == q.public_key) _ hp,
        ih, List.any_cons, Bool.eq_false_iff.2 hp, Bool.false_or]

/-- After `add_peer q` the public-key lookup for `q.public_key` finds
exactly `q`. -/
theorem find_by_public_key_add_peer_self (st : PeerStorage) (q : Peer) :
    (st.add_peer q).find_by_public_key q.public_key = .ok q := by
  unfold PeerStorage.add_peer PeerStorage.find_by_public_key
  by_cases hany : st.any (fun p => p.public_key == q.public_key)
  · rw [if_pos hany, find?_map_replace, if_pos hany]
  · rw [if_neg hany, List.find?_append]
    have hnone : st.find? (fun p => p.public_key == q.public_key) = none := by
      rw [List.find?_eq_none]
      intro x hx hpx
      exact hany (List.any_eq_true.2 ⟨x, hx, hpx⟩)
    rw [hnone]
    simp

/-- `find_by_public_key_add_peer_self`, stated against any name of the
stored peer's public key. -/
theorem find_by_public_key_add_peer (st : PeerStorage) (q : Peer) (pk : PublicKey)
    (h : q.public_key = pk) : (st.add_peer q).find_by_public_key pk = .ok q := by
  subst h
  exact find_by_public_key_add_peer_self st q

/-- C6: for a stored peer (offline, with failed attempts), a successful
`add_or_update_online_peer` on its public key returns a peer with
`is_offline = false` and `failed_attempts = 0`, stores exactly that
peer, and the stored record can be read back unchanged. -/
theorem add_or_update_online_peer_clears_offline (st : PeerStorage) (now : Nat)
    (pubkey : PublicKey) (node_id : NodeId) (net_addresses : List Nat)
    (peer_features : PeerFeatures) (peer : Peer)
    (hfind : st.find_by_public_key pubkey = .ok peer)
    (hoff : peer.is_offline = true)
    (hfail : 0 < peer.connection_stats.failed_attempts) :
    ∃ result,
      PeerManager.add_or_update_online_peer st now pubkey node_id net_addresses peer_features
        = (.ok result, st.add_peer result) ∧
      result.is_offline = false ∧
      result.connection_stats.failed_attempts = 0 ∧
      (st.add_peer result).find_by_public_key pubkey = .ok result := by
  have hpk : peer.public_key = pubkey := (find_by_public_key_ok st pubkey peer hfind).2
  unfold PeerManager.add_or_update_online_peer
  rw [hfind]
  refine ⟨_, rfl, ?_, ?_, ?_⟩
  · simp [Peer.update]
  · simp [Peer.update, PeerConnectionStats.set_connection_success]
  · exact find_by_public_key_add_peer st _ pubkey (by simp [Peer.update, hpk])

/-- C6 (witness): evaluated on a one-peer store holding the offline,
once-failed peer. -/
theorem add_or_update_online_peer_clears_offline_witness :
    ∃ result,
      PeerManager.add_or_update_online_peer [offline_failed_peer] 9 3 3 []
          PeerFeatures.COMMUNICATION_NODE
        = (.ok result, PeerStorage.add_peer [offline_failed_peer] result) ∧
      result.is_offline = false ∧
      result.connection_stats.failed_attempts = 0 ∧
      (PeerStorage.add_peer [offline_failed_peer] result).find_by_public_key 3 = .ok result :=
  add_or_update_online_peer_clears_offline [offline_failed_peer] 9 3 3 []
    PeerFeatures.COMMUNICATION_NODE offline_failed_peer rfl rfl (by decide)

/-- C1 (amended): `select_neighbours` admits a peer into its candidate
set iff the peer is not banned, carries the required features, is not
marked offline, and either has `failed_attempts ≤
broadcast_cooldown_max_attempts` or its last failure (when one is
recorded at all) lies at least `broadcast_cooldown_period` in the past;
the admitted peers are sorted by ascending distance from the reference
node id and limited to `n`. -/
theorem select_neighbours_characterisation (config : ConnectivityConfig)
    (features : PeerFeatures) (now : Nat) (storage : PeerStorage)
    (node_id : NodeId) (n : Nat) :
    (∀ peer, select_neighbours_predicate config features now peer = true
        ↔ neighbour_admission_amended config features now peer) ∧
    select_neighbours config features now storage node_id n
      = (sort_by_distance_from node_id
          (storage.filter (select_neighbours_predicate config features now))).take n ∧
    (select_neighbours config features now storage node_id n).Pairwise
      (distance_from_le node_id) ∧
    (select_neighbours config features now storage node_id n).length ≤ n := by
  refine ⟨?_, rfl, ?_, ?_⟩
  · intro peer
    unfold select_neighbours_predicate neighbour_admission_amended
    cases hb : peer.is_banned
    · cases hc : PeerFeatures.contains peer.features features
      · simp [hc]
      · cases ho : peer.is_offline
        · cases hlf : peer.connection_stats.last_failure with
          | none =>
            simp [PeerConnectionStats.time_since_last_failure, hlf]
          | some t =>
            simp [PeerConnectionStats.time_since_last_failure, hlf,
              Bool.or_eq_true, decide_eq_true_iff]
        · simp [ho]
    · simp [hb]
  · exact List.Pairwise.sublist (List.take_sublist _ _)
      (List.sorted_insertionSort (distance_from_le node_id) _)
  · exact List.length_take_le _ _

/-- C1 (counterexample): the offline peer with `failed_attempts = 0`
satisfies the claim's admission condition (not offline OR recently
recovered), yet `select_neighbours` returns the empty list on a
directory holding only that peer, with `n = 8`: the code additionally
requires the peer not to be offline. -/
theorem select_neighbours_rejects_offline_peer :
    neighbour_admission_claimed ConnectivityConfig.default
        PeerFeatures.COMMUNICATION_NODE 0 offline_zero_failure_peer ∧
    select_neighbours ConnectivityConfig.default PeerFeatures.COMMUNICATION_NODE 0
        [offline_zero_failure_peer] 0 8 = [] := by
  refine ⟨⟨rfl, rfl, Or.inr (Or.inl (by decide))⟩, rfl⟩

end Tari
